import Mathlib

/-!
Verification development for the Ak-personal-vault backend.

Python strings are modelled as `List Char`, byte strings as `List Nat`,
dictionaries as association lists, and fallible Python code as `Except`
values or explicit outcome types.  Each definition is a shallow embedding
of the corresponding function in `src/backend/app`.
-/

/-- Model of Python `str.lstrip()`: drop leading whitespace characters. -/
def lstrip (s : List Char) : List Char := s.dropWhile Char.isWhitespace

/-- Model of Python `str.rstrip()`: drop trailing whitespace characters. -/
def rstrip (s : List Char) : List Char :=
  (s.reverse.dropWhile Char.isWhitespace).reverse

/-- Model of Python `str.strip()`: drop leading and trailing whitespace. -/
def pyStrip (s : List Char) : List Char := rstrip (lstrip s)

/-- Model of the Python slice `s[:-n]` for `n ≤ len(s)`: drop the last
`n` characters. -/
def pyDropRight (n : Nat) (s : List Char) : List Char := s.take (s.length - n)

/-! ## Coach fallback loop (`src/backend/app/routes/coach.py`) -/

/-- Outcome of one HTTP chat-completion request issued inside the loop of
`get_coaching_feedback`.  `success c` means `response.raise_for_status()`
passed and `result['choices'][0]['message']['content']` was extracted as
`c`; `httpError s` means `raise_for_status` raised
`requests.exceptions.HTTPError` with `e.response.status_code = s`;
`otherError` means any other exception (network failure, JSON parse
failure, missing keys), caught by the final `except Exception` clause. -/
inductive ReqOutcome where
  | success (content : List Char)
  | httpError (status : Nat)
  | otherError
deriving DecidableEq

/-- Result of the whole `get_coaching_feedback` endpoint.  `ok f` is the
`CoachingResponse(feedback=f)` return; `raise500 s` is the
`HTTPException(status_code=500, detail=str(e))` raised on a non-503 HTTP
error whose original status was `s`; `allFailed503` is the final
`HTTPException(status_code=503, ...)` after every candidate failed. -/
inductive CoachOutcome where
  | ok (feedback : List Char)
  | raise500 (origStatus : Nat)
  | allFailed503
deriving DecidableEq

/-- Shallow embedding of the `for model in FALLBACK_MODELS` loop of
`get_coaching_feedback` in `coach.py`.  `f` gives the outcome of the HTTP
request for each candidate model.  Returns the endpoint outcome together
with the list of candidates for which a request was actually issued, in
order.  On success the content is stripped (`.strip()`); on a 503 HTTP
error or any non-HTTP exception the loop continues with the next
candidate; on any other HTTP error it stops and raises. -/
def coachTry (f : String → ReqOutcome) : List String → CoachOutcome × List String
  | [] => (CoachOutcome.allFailed503, [])
  | m :: rest =>
    match f m with
    | ReqOutcome.success c => (CoachOutcome.ok (pyStrip c), [m])
    | ReqOutcome.httpError s =>
      if s = 503 then
        let r := coachTry f rest
        (r.1, m :: r.2)
      else
        (CoachOutcome.raise500 s, [m])
    | ReqOutcome.otherError =>
      let r := coachTry f rest
      (r.1, m :: r.2)

/-! ## Voice WebSocket pipeline (`src/backend/app/routes/voice.py`) -/

/-- Per-connection state of the `voice_stream` WebSocket handler: the
`is_recording` flag and the `audio_chunks` buffer of decoded byte chunks. -/
structure VState where
  is_recording : Bool
  audio_chunks : List (List Nat)
deriving DecidableEq

/-- Initial state after `websocket.accept()`: not recording, empty buffer. -/
def voiceInit : VState := ⟨false, []⟩

/-- Client-to-server messages of the `/stream` WebSocket.  `audioChunk a`
carries the base64 `audio` field as a string; `other` is any message whose
`action` matches no handled branch. -/
inductive VMsg where
  | startRecording
  | audioChunk (audio : List Char)
  | stopRecording
  | ping
  | other
deriving DecidableEq

/-- Observable effects of the handler.  `statusStarted` and
`statusStopped` are the two `send_json` status replies, `pong` answers
`ping`, `transcription t` is the `{"type": "transcription", "text": t}`
message, and `flushEvent cs` records a call of `process_audio_chunks`
with buffered chunk list `cs`. -/
inductive VOut where
  | statusStarted
  | statusStopped
  | pong
  | transcription (text : List Char)
  | flushEvent (chunks : List (List Nat))
deriving DecidableEq

/-- Shallow embedding of `process_audio_chunks` in `voice.py`.
`transcribe` abstracts the WebM-to-WAV conversion plus the Whisper model
call: `some t` means transcription produced full text `t` (the joined
stripped segment texts), `none` means an exception was raised somewhere in
the pipeline (caught and swallowed by the outer `except`).  The returned
`Bool` records whether the speech-to-text model was invoked; the chunk
bytes are concatenated (`b''.join(chunks)`) and a concatenation shorter
than 1000 bytes returns before any model work.  A transcription message is
sent only when the full text is non-empty (`if full_text:`). -/
def process_audio_chunks (transcribe : List Nat → Option (List Char))
    (chunks : List (List Nat)) : Bool × List VOut :=
  if chunks.flatten.length < 1000 then
    (false, [])
  else
    match transcribe chunks.flatten with
    | none => (true, [])
    | some full_text =>
      (true, if full_text = [] then [] else [VOut.transcription full_text])

/-- Shallow embedding of one iteration of the `while True` receive loop of
`voice_stream`.  `b64` abstracts `base64.b64decode`.  An `audio_chunk`
message is handled only while `is_recording` and only when its `audio`
field is non-empty (`if audio_data:`); after the buffer reaches 5 chunks it
is flushed through `process_audio_chunks` and cleared.  `stop_recording`
flushes any non-empty remainder, clears the buffer and leaves recording
mode. -/
def voiceStep (b64 : List Char → List Nat)
    (transcribe : List Nat → Option (List Char))
    (s : VState) (m : VMsg) : VState × List VOut :=
  match m with
  | VMsg.startRecording =>
    (⟨true, []⟩, [VOut.statusStarted])
  | VMsg.audioChunk audio_data =>
    if s.is_recording then
      if audio_data = [] then
        (s, [])
      else
        let chunks := s.audio_chunks ++ [b64 audio_data]
        if 5 ≤ chunks.length then
          let pr := process_audio_chunks transcribe chunks
          (⟨s.is_recording, []⟩, VOut.flushEvent chunks :: pr.2)
        else
          (⟨s.is_recording, chunks⟩, [])
    else
      (s, [])
  | VMsg.stopRecording =>
    if s.audio_chunks = [] then
      (⟨false, []⟩, [VOut.statusStopped])
    else
      let pr := process_audio_chunks transcribe s.audio_chunks
      (⟨false, []⟩, VOut.flushEvent s.audio_chunks :: pr.2 ++ [VOut.statusStopped])
  | VMsg.ping => (s, [VOut.pong])
  | VMsg.other => (s, [])

/-- Run the receive loop of `voice_stream` over a list of client messages,
collecting the emitted effects in order. -/
def voiceRun (b64 : List Char → List Nat)
    (transcribe : List Nat → Option (List Char)) :
    VState → List VMsg → VState × List VOut
  | s, [] => (s, [])
  | s, m :: ms =>
    let r := voiceStep b64 transcribe s m
    let rest := voiceRun b64 transcribe r.1 ms
    (rest.1, r.2 ++ rest.2)

/-- Extract the flush events (inputs of `process_audio_chunks` calls) from
an effect trace. -/
def flushes (outs : List VOut) : List (List (List Nat)) :=
  outs.filterMap fun o =>
    match o with
    | VOut.flushEvent cs => some cs
    | _ => none

/-! ## Code-fence stripping (`gemini_provider.py`, `openrouter_provider.py`,
legacy `gemini.py`) -/

/-- The backtick character (code point 96) used in Markdown code fences. -/
def backtick : Char := Char.ofNat 96

/-- The seven-character marker that opens a JSON code fence in model output. -/
def fenceJson : List Char := [backtick, backtick, backtick, 'j', 's', 'o', 'n']

/-- The three-character plain code-fence marker. -/
def fence : List Char := [backtick, backtick, backtick]

/-- Shallow embedding of `GeminiProvider._clean_json_response` in
`gemini_provider.py`: drop a leading fenceJson marker (`text[7:]`), then a
leading fence marker (`text[3:]`), then a trailing fence marker
(`text[:-3]`), then strip whitespace. -/
def cleanJsonResponse (text : List Char) : List Char :=
  let t1 := if fenceJson.isPrefixOf text then text.drop 7 else text
  let t2 := if fence.isPrefixOf t1 then t1.drop 3 else t1
  let t3 := if fence.isSuffixOf t2 then pyDropRight 3 t2 else t2
  pyStrip t3

/-- Shallow embedding of the inline fence-stripping sequence repeated in
`OpenRouterProvider.chat` and `OpenRouterProvider.generate_insights` in
`openrouter_provider.py` (the three startswith/endswith slices followed by
a final `.strip()`). -/
def openrouterStripFences (text : List Char) : List Char :=
  let t1 := if fenceJson.isPrefixOf text then text.drop 7 else text
  let t2 := if fence.isPrefixOf t1 then t1.drop 3 else t1
  let t3 := if fence.isSuffixOf t2 then pyDropRight 3 t2 else t2
  pyStrip t3

/-- A model response text wrapped in code-fence markers: a leading
fenceJson marker and newline, the body, a newline and a trailing fence
marker. -/
def wrapJsonFence (body : List Char) : List Char :=
  fenceJson ++ '\n' :: (body ++ '\n' :: fence)

/-- A model response text wrapped in plain code-fence markers: a leading
three-backtick fence marker and newline, the body, a newline and a
trailing fence marker. -/
def wrapPlainFence (body : List Char) : List Char :=
  fence ++ '\n' :: (body ++ '\n' :: fence)

/-- The string handed to `json.loads` by `GeminiProvider.chat` (and its
`generate_insights`): `response.text.strip()` put through
`_clean_json_response`. -/
def geminiProvider_parse_input (respText : List Char) : List Char :=
  cleanJsonResponse (pyStrip respText)

/-- The string handed to `json.loads` by `OpenRouterProvider.chat` and
`OpenRouterProvider.generate_insights`: `response_text.strip()` put
through the inline fence-stripping sequence. -/
def openrouter_parse_input (respText : List Char) : List Char :=
  openrouterStripFences (pyStrip respText)

/-- The string handed to `json.loads` by the legacy `chat_with_ai` in
`gemini.py` (line `result = json.loads(response.text)`): the raw response
text, with no cleaning applied. -/
def chat_with_ai_parse_input (respText : List Char) : List Char :=
  respText

/-- The string handed to `json.loads` by the legacy `generate_insights` in
`gemini.py` (line `insights = json.loads(response.text)`): the raw
response text, with no cleaning applied. -/
def gemini_generate_insights_parse_input (respText : List Char) : List Char :=
  respText

/-! ## Daily-quote cache (`src/backend/app/routes/quotes.py`) -/

/-- A tracking entry as seen by the dashboard aggregation: the `type`
discriminator, the numeric `value` (Python floats modelled as rationals)
and the optional `notes` string. -/
structure Entry where
  type : String
  value : ℚ
  notes : Option String
deriving DecidableEq

/-- The `sleep_entries` partition of `get_dashboard`. -/
def sleepEntries (es : List Entry) : List Entry :=
  es.filter fun e => e.type = "sleep"

/-- The `water_entries` partition of `get_dashboard`. -/
def waterEntries (es : List Entry) : List Entry :=
  es.filter fun e => e.type = "water"

/-- The `gym_entries` partition of `get_dashboard`. -/
def gymEntries (es : List Entry) : List Entry :=
  es.filter fun e => e.type = "gym"

/-- The `mood_entries` partition of `get_dashboard`. -/
def moodEntries (es : List Entry) : List Entry :=
  es.filter fun e => e.type = "mood"

/-- The `sleep_avg` field of the analytics dict:
`sum(e["value"] for e in sleep_entries) / len(sleep_entries) if sleep_entries else 0`. -/
def sleep_avg (es : List Entry) : ℚ :=
  let s := sleepEntries es
  if s = [] then 0 else (s.map Entry.value).sum / s.length

/-- The `water_avg` field of the analytics dict. -/
def water_avg (es : List Entry) : ℚ :=
  let s := waterEntries es
  if s = [] then 0 else (s.map Entry.value).sum / s.length

/-- The `gym_count` field of the analytics dict: `len(gym_entries)`. -/
def gym_count (es : List Entry) : Nat :=
  (gymEntries es).length

/-- The `mood_avg` field of the analytics dict:
`sum(float(e["notes"] == "happy") for e in mood_entries) / len(mood_entries)
if mood_entries else 0`. -/
def mood_avg (es : List Entry) : ℚ :=
  let s := moodEntries es
  if s = [] then 0
  else (s.map fun e => if e.notes = some "happy" then (1 : ℚ) else 0).sum / s.length

/-! ## Persistence gateway mock mode (`src/backend/app/services/supabase.py`) -/

/-- A Python value stored in an entry dictionary. -/
inductive PyVal where
  | str (s : String)
  | num (q : ℚ)
  | pyNone
deriving DecidableEq

/-- A Python dictionary modelled as an association list keeping insertion
order; keys are unique. -/
abbrev PyDict := List (String × PyVal)

/-- Dictionary lookup (`d[k]` returning `none` when the key is absent). -/
def dictLookup : PyDict → String → Option PyVal
  | [], _ => none
  | (k, v) :: rest, key => if k = key then some v else dictLookup rest key

/-- Model of the Python dict display `{**d, k: v}`: existing keys keep
their position (the value of `k` is replaced in place if present),
otherwise `k` is appended at the end. -/
def dictSet (d : PyDict) (k : String) (v : PyVal) : PyDict :=
  if (dictLookup d k).isSome then
    d.map fun p => if p.1 = k then (k, v) else p
  else
    d ++ [(k, v)]

/-- Shallow embedding of the mock-mode branch of `save_tracking_entry` in
`supabase.py` (the `if not supabase:` branch taken when no valid database
credentials are configured).  The log line interpolates `entry['type']`,
which raises `KeyError` when the key is absent; otherwise the function
returns `{**entry, "id": "mock-id-123"}`. -/
def save_tracking_entry_mock (entry : PyDict) : Except String PyDict :=
  match dictLookup entry "type" with
  | none => Except.error "KeyError: type"
  | some _ => Except.ok (dictSet entry "id" (PyVal.str "mock-id-123"))

/-- A validated `TrackingEntry` request body (`schemas.py`): `user_id`,
`type` (one of the six literal tags), `value`, optional `notes` and
optional `timestamp` (timestamps modelled as their ISO strings). -/
structure TrackingEntry where
  user_id : String
  type : String
  value : ℚ
  notes : Option String
  timestamp : Option String
deriving DecidableEq

/-- The dict built by the `/api/tracking/log` route handler in
`tracking.py`: `entry.dict()` in field order, with a missing (falsy)
timestamp replaced by the current time `now`. -/
def log_entry_dict (t : TrackingEntry) (now : String) : PyDict :=
  [("user_id", PyVal.str t.user_id),
   ("type", PyVal.str t.type),
   ("value", PyVal.num t.value),
   ("notes", match t.notes with | some n => PyVal.str n | none => PyVal.pyNone),
   ("timestamp", PyVal.str (match t.timestamp with | some ts => ts | none => now))]

/-! ## Provider insights and daily quote (`gemini_provider.py`,
`openrouter_provider.py`, legacy `gemini.py`) -/

/-- The fixed default insight list returned by every `generate_insights`
implementation when the model call or the JSON parse fails. -/
def fallback_insights : List (List Char) :=
  ["Keep tracking to see patterns!".toList,
   "Consistency is key to progress.".toList,
   "Great job staying engaged!".toList]

/-- The user name constant `USER_NAME = "Akash"` in `prompts.py`. -/
def USER_NAME : List Char := "Akash".toList

/-- Shallow embedding of `get_daily_quote_fallback` in `prompts.py`:
`DAILY_QUOTE_FALLBACK.format(user_name=name)` where
`name = user_name or USER_NAME` (a falsy — empty — name falls back to the
constant). -/
def get_daily_quote_fallback (user_name : List Char) : List Char :=
  let name := if user_name = [] then USER_NAME else user_name
  "Small steps every day lead to big changes, ".toList ++ name ++ ". 🌱".toList

/-- The double-quote character (code point 34). -/
def dquote : Char := Char.ofNat 34

/-- The single-quote character (code point 39). -/
def squote : Char := Char.ofNat 39

/-- Shallow embedding of the quote-unwrapping step shared by both
`generate_daily_quote` implementations: if the stripped quote starts and
ends with a double quote, take `quote[1:-1]`; then the same for single
quotes. -/
def stripMatchingQuotes (q0 : List Char) : List Char :=
  let q1 := if [dquote].isPrefixOf q0 && [dquote].isSuffixOf q0
    then pyDropRight 1 (q0.drop 1) else q0
  if [squote].isPrefixOf q1 && [squote].isSuffixOf q1
    then pyDropRight 1 (q1.drop 1) else q1

/-- Shallow embedding of `GeminiProvider.generate_insights` in
`gemini_provider.py`.  `upstream` is the outcome of
`self.model.generate_content(prompt)` (`.error` when the SDK raises) and
`loads` the outcome of `json.loads` on the cleaned text.  The bare
`except:` converts every failure into the fixed fallback list. -/
def geminiProvider_generate_insights (upstream : Except String (List Char))
    (loads : List Char → Except String (List (List Char))) :
    Except String (List (List Char)) :=
  match upstream with
  | Except.error _ => Except.ok fallback_insights
  | Except.ok text =>
    match loads (geminiProvider_parse_input text) with
    | Except.ok insights => Except.ok insights
    | Except.error _ => Except.ok fallback_insights

/-- Shallow embedding of `OpenRouterProvider.generate_insights` in
`openrouter_provider.py`.  `upstream` is the outcome of `_make_request`
(which re-raises request exceptions) and `loads` the outcome of
`json.loads` on the cleaned text; the bare `except:` converts every
failure into the fixed fallback list. -/
def openrouter_generate_insights (upstream : Except String (List Char))
    (loads : List Char → Except String (List (List Char))) :
    Except String (List (List Char)) :=
  match upstream with
  | Except.error _ => Except.ok fallback_insights
  | Except.ok text =>
    match loads (openrouter_parse_input text) with
    | Except.ok insights => Except.ok insights
    | Except.error _ => Except.ok fallback_insights

/-- Shallow embedding of the legacy `generate_insights` in `gemini.py`:
like the provider versions but `json.loads` is applied to the raw
`response.text` with no fence cleaning. -/
def gemini_generate_insights (upstream : Except String (List Char))
    (loads : List Char → Except String (List (List Char))) :
    Except String (List (List Char)) :=
  match upstream with
  | Except.error _ => Except.ok fallback_insights
  | Except.ok text =>
    match loads (gemini_generate_insights_parse_input text) with
    | Except.ok insights => Except.ok insights
    | Except.error _ => Except.ok fallback_insights

/-- Shallow embedding of `GeminiProvider.generate_daily_quote` in
`gemini_provider.py`: on success the response text is stripped and
unquoted; any exception yields `get_daily_quote_fallback(user_name)`. -/
def geminiProvider_generate_daily_quote (upstream : Except String (List Char))
    (user_name : List Char) : Except String (List Char) :=
  match upstream with
  | Except.error _ => Except.ok (get_daily_quote_fallback user_name)
  | Except.ok text => Except.ok (stripMatchingQuotes (pyStrip text))

/-- Shallow embedding of `OpenRouterProvider.generate_daily_quote` in
`openrouter_provider.py`: same strip-and-unquote on success, same
fallback on any exception from `_make_request`. -/
def openrouter_generate_daily_quote (upstream : Except String (List Char))
    (user_name : List Char) : Except String (List Char) :=
  match upstream with
  | Except.error _ => Except.ok (get_daily_quote_fallback user_name)
  | Except.ok text => Except.ok (stripMatchingQuotes (pyStrip text))

/-! ## Theorems -/

/-- C1: for every ordered candidate model list of length N, if the HTTP
request for each of the first N−1 candidates fails with status 503 and the
request for the Nth candidate succeeds with content `c`, then
`get_coaching_feedback` returns a success response whose feedback is `c`
stripped of leading and trailing whitespace (and every candidate was
attempted, in order). -/
theorem coach_fallback_503_then_success (f : String → ReqOutcome)
    (pre : List String) (m : String) (c : List Char)
    (hpre : ∀ x ∈ pre, f x = ReqOutcome.httpError 503)
    (hm : f m = ReqOutcome.success c) :
    coachTry f (pre ++ [m]) = (CoachOutcome.ok (pyStrip c), pre ++ [m]) := by
  induction pre with
  | nil => simp [coachTry, hm]
  | cons a as ih =>
    have ha : f a = ReqOutcome.httpError 503 := hpre a (by simp)
    have ih' := ih (fun x hx => hpre x (by simp [hx]))
    simp [coachTry, ha, ih']

/-- Witness for C1: with a first candidate answering 503 and a second
answering success with content `" hi "`, the endpoint returns the trimmed
feedback `"hi"` and both candidates were attempted. -/
theorem coach_fallback_503_then_success_witness :
    coachTry
      (fun m => if m = "model-a" then ReqOutcome.httpError 503
        else ReqOutcome.success " hi ".toList)
      ["model-a", "model-b"]
      = (CoachOutcome.ok "hi".toList, ["model-a", "model-b"]) := by
  have h := coach_fallback_503_then_success
    (fun m => if m = "model-a" then ReqOutcome.httpError 503
      else ReqOutcome.success " hi ".toList)
    ["model-a"] "model-b" " hi ".toList (by decide) (by decide)
  have hs : pyStrip " hi ".toList = "hi".toList := by decide
  rw [hs] at h
  exact h

/-- C2: if the loop of `get_coaching_feedback` reaches a candidate whose
HTTP request fails with a non-503 HTTP error (every earlier candidate
returned 503 or a non-HTTP error), the endpoint immediately raises the
surfaced error and no request is issued for any later candidate. -/
theorem coach_non503_stops_immediately (f : String → ReqOutcome)
    (pre post : List String) (m : String) (s : Nat)
    (hpre : ∀ x ∈ pre, f x = ReqOutcome.httpError 503 ∨ f x = ReqOutcome.otherError)
    (hm : f m = ReqOutcome.httpError s) (hs : s ≠ 503) :
    coachTry f (pre ++ m :: post) = (CoachOutcome.raise500 s, pre ++ [m]) := by
  induction pre with
  | nil => simp [coachTry, hm, hs]
  | cons a as ih =>
    have ih' := ih (fun x hx => hpre x (by simp [hx]))
    rcases hpre a (by simp) with ha | ha <;> simp [coachTry, ha, ih']

/-- Witness for C2: with the first candidate raising a non-HTTP error and
the second failing with HTTP 404, the endpoint raises immediately and the
third candidate is never attempted. -/
theorem coach_non503_stops_immediately_witness :
    coachTry
      (fun m => if m = "model-a" then ReqOutcome.otherError
        else ReqOutcome.httpError 404)
      ["model-a", "model-b", "model-c"]
      = (CoachOutcome.raise500 404, ["model-a", "model-b"]) := by
  exact coach_non503_stops_immediately
    (fun m => if m = "model-a" then ReqOutcome.otherError
      else ReqOutcome.httpError 404)
    ["model-a"] ["model-c"] "model-b" 404 (by decide) (by decide) (by decide)

/-- Helper: `flushes` distributes over list append. -/
theorem flushes_append (xs ys : List VOut) :
    flushes (xs ++ ys) = flushes xs ++ flushes ys := by
  simp [flushes]

/-- Helper: a flush event contributes its chunk list to `flushes`. -/
theorem flushes_cons_flushEvent (cs : List (List Nat)) (xs : List VOut) :
    flushes (VOut.flushEvent cs :: xs) = cs :: flushes xs := by
  simp [flushes]

/-- Helper: a transcription message contributes nothing to `flushes`. -/
theorem flushes_cons_transcription (t : List Char) (xs : List VOut) :
    flushes (VOut.transcription t :: xs) = flushes xs := by
  simp [flushes]

/-- Helper: status and pong messages contribute nothing to `flushes`. -/
theorem flushes_cons_statusStarted (xs : List VOut) :
    flushes (VOut.statusStarted :: xs) = flushes xs := by
  simp [flushes]

/-- Helper: the stop status message contributes nothing to `flushes`. -/
theorem flushes_cons_statusStopped (xs : List VOut) :
    flushes (VOut.statusStopped :: xs) = flushes xs := by
  simp [flushes]

/-- Helper: the empty trace has no flushes. -/
theorem flushes_nil : flushes [] = [] := rfl

/-- Helper: `process_audio_chunks` itself never emits a flush event, so
flush counting over a trace only sees the events recorded by `voiceStep`. -/
theorem flushes_process_audio_chunks (transcribe : List Nat → Option (List Char))
    (chunks : List (List Nat)) :
    flushes (process_audio_chunks transcribe chunks).2 = [] := by
  unfold process_audio_chunks
  split
  · rfl
  · split
    · rfl
    · split <;> simp [flushes]

/-- C3: within one recording session, 4 non-empty audio chunks followed by
`stop_recording` trigger exactly one flush whose input is the list of the
4 decoded chunks in arrival order (whose concatenation is processed); 5
non-empty chunks without `stop_recording` trigger exactly one flush
covering all 5, occurring upon the 5th chunk (no flush happens during the
first 4), and afterwards the buffer is empty — for every decode and
transcription behaviour, hence regardless of transcription success. -/
theorem voice_buffer_flush_behavior (b64 : List Char → List Nat)
    (transcribe : List Nat → Option (List Char))
    (a1 a2 a3 a4 a5 : List Char)
    (h1 : a1 ≠ []) (h2 : a2 ≠ []) (h3 : a3 ≠ []) (h4 : a4 ≠ []) (h5 : a5 ≠ []) :
    flushes (voiceRun b64 transcribe voiceInit
        [VMsg.startRecording, VMsg.audioChunk a1, VMsg.audioChunk a2,
         VMsg.audioChunk a3, VMsg.audioChunk a4, VMsg.stopRecording]).2
      = [[b64 a1, b64 a2, b64 a3, b64 a4]] ∧
    flushes (voiceRun b64 transcribe voiceInit
        [VMsg.startRecording, VMsg.audioChunk a1, VMsg.audioChunk a2,
         VMsg.audioChunk a3, VMsg.audioChunk a4, VMsg.audioChunk a5]).2
      = [[b64 a1, b64 a2, b64 a3, b64 a4, b64 a5]] ∧
    (voiceRun b64 transcribe voiceInit
        [VMsg.startRecording, VMsg.audioChunk a1, VMsg.audioChunk a2,
         VMsg.audioChunk a3, VMsg.audioChunk a4, VMsg.audioChunk a5]).1.audio_chunks
      = [] ∧
    flushes (voiceRun b64 transcribe voiceInit
        [VMsg.startRecording, VMsg.audioChunk a1, VMsg.audioChunk a2,
         VMsg.audioChunk a3, VMsg.audioChunk a4]).2
      = [] := by
  refine ⟨?_, ?_, ?_, ?_⟩ <;>
    simp [voiceRun, voiceStep, voiceInit, h1, h2, h3, h4, h5,
      flushes_append, flushes_cons_flushEvent, flushes_cons_statusStarted,
      flushes_cons_statusStopped, flushes_nil, flushes_process_audio_chunks]

/-- Witness for C3: a concrete session with constant decode `[0]` and a
failing transcriber shows one flush of four chunks on stop, one flush of
five chunks at the fifth, and an empty buffer afterwards. -/
theorem voice_buffer_flush_behavior_witness :
    (['x'] : List Char) ≠ [] ∧
    (flushes (voiceRun (fun _ => [0]) (fun _ => none) voiceInit
        [VMsg.startRecording, VMsg.audioChunk ['x'], VMsg.audioChunk ['x'],
         VMsg.audioChunk ['x'], VMsg.audioChunk ['x'], VMsg.stopRecording]).2
      = [[[0], [0], [0], [0]]] ∧
    flushes (voiceRun (fun _ => [0]) (fun _ => none) voiceInit
        [VMsg.startRecording, VMsg.audioChunk ['x'], VMsg.audioChunk ['x'],
         VMsg.audioChunk ['x'], VMsg.audioChunk ['x'], VMsg.audioChunk ['x']]).2
      = [[[0], [0], [0], [0], [0]]] ∧
    (voiceRun (fun _ => [0]) (fun _ => none) voiceInit
        [VMsg.startRecording, VMsg.audioChunk ['x'], VMsg.audioChunk ['x'],
         VMsg.audioChunk ['x'], VMsg.audioChunk ['x'], VMsg.audioChunk ['x']]).1.audio_chunks
      = [] ∧
    flushes (voiceRun (fun _ => [0]) (fun _ => none) voiceInit
        [VMsg.startRecording, VMsg.audioChunk ['x'], VMsg.audioChunk ['x'],
         VMsg.audioChunk ['x'], VMsg.audioChunk ['x']]).2
      = []) :=
  ⟨by decide,
   voice_buffer_flush_behavior (fun _ => [0]) (fun _ => none)
     ['x'] ['x'] ['x'] ['x'] ['x']
     (by decide) (by decide) (by decide) (by decide) (by decide)⟩

/-- C4: for every flush, if the concatenation of the buffered decoded
chunks is shorter than 1000 bytes, `process_audio_chunks` never invokes
the speech-to-text model (invoked flag `false`) and sends nothing to the
client: the flush is silently discarded. -/
theorem small_flush_skips_transcription (transcribe : List Nat → Option (List Char))
    (chunks : List (List Nat)) (h : chunks.flatten.length < 1000) :
    process_audio_chunks transcribe chunks = (false, []) := by
  unfold process_audio_chunks
  rw [if_pos h]

/-- Witness for C4: a 3-byte flush is discarded without invoking the
model, even though the transcriber would have produced text. -/
theorem small_flush_skips_transcription_witness :
    ([[1, 2, 3]] : List (List Nat)).flatten.length < 1000 ∧
    process_audio_chunks (fun _ => some ['x']) [[1, 2, 3]] = (false, []) :=
  ⟨by decide, small_flush_skips_transcription (fun _ => some ['x']) [[1, 2, 3]] (by decide)⟩

/-- C10: an `audio_chunk` message received while the connection is not in
the recording state is ignored: the state (in particular the audio
buffer) is unchanged and no effect — no reply, no flush, no transcription
— is produced. -/
theorem audio_chunk_ignored_when_not_recording (b64 : List Char → List Nat)
    (transcribe : List Nat → Option (List Char)) (s : VState) (a : List Char)
    (h : s.is_recording = false) :
    voiceStep b64 transcribe s (VMsg.audioChunk a) = (s, []) := by
  simp [voiceStep, h]

/-- Witness for C10: a chunk arriving on a non-recording connection with a
non-empty buffer leaves the state untouched and produces no output. -/
theorem audio_chunk_ignored_when_not_recording_witness :
    voiceStep (fun _ => [0]) (fun _ => none) ⟨false, [[5]]⟩ (VMsg.audioChunk ['x'])
      = (⟨false, [[5]]⟩, []) :=
  audio_chunk_ignored_when_not_recording (fun _ => [0]) (fun _ => none)
    ⟨false, [[5]]⟩ ['x'] rfl

/-- C7: over the filtered entry set of the analytics dashboard, sleep
entries with values exactly 6 and 8 give `sleep_avg = 7` (the arithmetic
mean); with zero gym entries `gym_count = 0`; with zero mood entries
`mood_avg = 0` rather than an error; and the other averaged categories
with zero entries likewise report 0. -/
theorem dashboard_averages (es : List Entry) :
    ((sleepEntries es).map Entry.value = [6, 8] → sleep_avg es = 7) ∧
    (gymEntries es = [] → gym_count es = 0) ∧
    (moodEntries es = [] → mood_avg es = 0) ∧
    (sleepEntries es = [] → sleep_avg es = 0) ∧
    (waterEntries es = [] → water_avg es = 0) := by
  refine ⟨?_, ?_, ?_, ?_, ?_⟩
  · intro h
    have hlen : (sleepEntries es).length = 2 := by
      have h2 := congrArg List.length h
      simpa using h2
    have hne : sleepEntries es ≠ [] := by
      intro h0
      rw [h0] at hlen
      simp at hlen
    have hv : sleep_avg es = ((sleepEntries es).map Entry.value).sum
        / ((sleepEntries es).length : ℚ) := by
      simp [sleep_avg, hne]
    rw [hv, h, hlen]
    norm_num
  · intro h
    simp [gym_count, h]
  · intro h
    simp [mood_avg, h]
  · intro h
    simp [sleep_avg, h]
  · intro h
    simp [water_avg, h]

/-- Witness for C7: concrete entry lists — two sleep entries valued 6 and
8 give average 7, and the empty entry list gives 0 for every category. -/
theorem dashboard_averages_witness :
    sleep_avg [⟨"sleep", 6, none⟩, ⟨"sleep", 8, none⟩] = 7 ∧
    gym_count [] = 0 ∧ mood_avg [] = 0 ∧ sleep_avg [] = 0 ∧ water_avg [] = 0 :=
  ⟨(dashboard_averages [⟨"sleep", 6, none⟩, ⟨"sleep", 8, none⟩]).1 (by decide),
   (dashboard_averages []).2.1 rfl,
   (dashboard_averages []).2.2.1 rfl,
   (dashboard_averages []).2.2.2.1 rfl,
   (dashboard_averages []).2.2.2.2 rfl⟩

/-- C8: in mock mode (no valid database credentials configured), for every
entry dict submitted through the tracking route, `save_tracking_entry`
returns — without raising — a dict consisting of all the submitted fields
followed by the placeholder identifier `"mock-id-123"` under the key
`"id"`. -/
theorem mock_save_returns_fields_plus_id (t : TrackingEntry) (now : String) :
    save_tracking_entry_mock (log_entry_dict t now)
      = Except.ok (log_entry_dict t now ++ [("id", PyVal.str "mock-id-123")]) := by
  have htype : dictLookup (log_entry_dict t now) "type" = some (PyVal.str t.type) := by
    simp [log_entry_dict, dictLookup]
  have hid : dictLookup (log_entry_dict t now) "id" = none := by
    simp [log_entry_dict, dictLookup]
  simp [save_tracking_entry_mock, htype, dictSet, hid]

/-- C9: every `generate_insights` and `generate_daily_quote`
implementation (both provider classes and the legacy `gemini.py` module)
always returns a value and never propagates an exception: when the
upstream model call fails, and when JSON parsing of the response fails,
the insights implementations return the fixed default insight list and the
quote implementations return the formatted fallback quote. -/
theorem insights_and_quote_never_propagate (e : String) (text name : List Char)
    (loads : List Char → Except String (List (List Char)))
    (upstream : Except String (List Char)) :
    (∃ v, geminiProvider_generate_insights upstream loads = Except.ok v) ∧
    geminiProvider_generate_insights (Except.error e) loads
      = Except.ok fallback_insights ∧
    geminiProvider_generate_insights (Except.ok text) (fun _ => Except.error e)
      = Except.ok fallback_insights ∧
    (∃ v, openrouter_generate_insights upstream loads = Except.ok v) ∧
    openrouter_generate_insights (Except.error e) loads
      = Except.ok fallback_insights ∧
    openrouter_generate_insights (Except.ok text) (fun _ => Except.error e)
      = Except.ok fallback_insights ∧
    (∃ v, gemini_generate_insights upstream loads = Except.ok v) ∧
    gemini_generate_insights (Except.error e) loads
      = Except.ok fallback_insights ∧
    gemini_generate_insights (Except.ok text) (fun _ => Except.error e)
      = Except.ok fallback_insights ∧
    (∃ q, geminiProvider_generate_daily_quote upstream name = Except.ok q) ∧
    geminiProvider_generate_daily_quote (Except.error e) name
      = Except.ok (get_daily_quote_fallback name) ∧
    (∃ q, openrouter_generate_daily_quote upstream name = Except.ok q) ∧
    openrouter_generate_daily_quote (Except.error e) name
      = Except.ok (get_daily_quote_fallback name) := by
  refine ⟨?_, rfl, rfl, ?_, rfl, rfl, ?_, rfl, rfl, ?_, rfl, ?_, rfl⟩
  · cases upstream with
    | error _ => exact ⟨fallback_insights, rfl⟩
    | ok t' =>
      cases h : loads (geminiProvider_parse_input t') with
      | ok v => exact ⟨v, by simp [geminiProvider_generate_insights, h]⟩
      | error _ =>
        exact ⟨fallback_insights, by simp [geminiProvider_generate_insights, h]⟩
  · cases upstream with
    | error _ => exact ⟨fallback_insights, rfl⟩
    | ok t' =>
      cases h : loads (openrouter_parse_input t') with
      | ok v => exact ⟨v, by simp [openrouter_generate_insights, h]⟩
      | error _ =>
        exact ⟨fallback_insights, by simp [openrouter_generate_insights, h]⟩
  · cases upstream with
    | error _ => exact ⟨fallback_insights, rfl⟩
    | ok t' =>
      cases h : loads (gemini_generate_insights_parse_input t') with
      | ok v => exact ⟨v, by simp [gemini_generate_insights, h]⟩
      | error _ =>
        exact ⟨fallback_insights, by simp [gemini_generate_insights, h]⟩
  · cases upstream with
    | error _ => exact ⟨get_daily_quote_fallback name, rfl⟩
    | ok t' => exact ⟨stripMatchingQuotes (pyStrip t'), rfl⟩
  · cases upstream with
    | error _ => exact ⟨get_daily_quote_fallback name, rfl⟩
    | ok t' => exact ⟨stripMatchingQuotes (pyStrip t'), rfl⟩

/-- Helper: `lstrip` keeps a non-whitespace head character. -/
theorem lstrip_cons_of_not_ws (c : Char) (l : List Char)
    (h : c.isWhitespace = false) : lstrip (c :: l) = c :: l := by
  simp [lstrip, List.dropWhile_cons, h]

/-- Helper: `lstrip` drops a whitespace head character. -/
theorem lstrip_cons_of_ws (c : Char) (l : List Char)
    (h : c.isWhitespace = true) : lstrip (c :: l) = lstrip l := by
  simp [lstrip, List.dropWhile_cons, h]

/-- Helper: `rstrip` keeps a non-whitespace last character. -/
theorem rstrip_append_of_not_ws (l : List Char) (c : Char)
    (h : c.isWhitespace = false) : rstrip (l ++ [c]) = l ++ [c] := by
  simp [rstrip, List.reverse_append, List.dropWhile_cons, h]

/-- Helper: `rstrip` drops a whitespace last character. -/
theorem rstrip_append_of_ws (l : List Char) (c : Char)
    (h : c.isWhitespace = true) : rstrip (l ++ [c]) = rstrip l := by
  simp [rstrip, List.reverse_append, List.dropWhile_cons, h]

/-- Helper: stripping a text surrounded by one extra newline on each side
gives the same result as stripping the text itself. -/
theorem pyStrip_newline_wrap (l : List Char) :
    pyStrip ('\n' :: (l ++ ['\n'])) = pyStrip l := by
  unfold pyStrip
  rw [lstrip_cons_of_ws _ _ (by decide)]
  induction l with
  | nil => decide
  | cons c l' ih =>
    cases hws : c.isWhitespace with
    | true =>
      rw [List.cons_append, lstrip_cons_of_ws _ _ hws, lstrip_cons_of_ws _ _ hws]
      exact ih
    | false =>
      rw [List.cons_append, lstrip_cons_of_not_ws _ _ hws,
        lstrip_cons_of_not_ws _ _ hws, ← List.cons_append,
        rstrip_append_of_ws _ _ (by decide)]

/-- Helper: a fenced response has no surrounding whitespace, so the
initial `.strip()` of the provider pipelines leaves it unchanged. -/
theorem pyStrip_wrapJsonFence (body : List Char) :
    pyStrip (wrapJsonFence body) = wrapJsonFence body := by
  have hx : wrapJsonFence body
      = backtick :: ([backtick, backtick, 'j', 's', 'o', 'n']
          ++ ('\n' :: (body ++ '\n' :: fence))) := by
    simp [wrapJsonFence, fenceJson]
  have hy : wrapJsonFence body
      = (backtick :: ([backtick, backtick, 'j', 's', 'o', 'n']
          ++ ('\n' :: body)) ++ ['\n', backtick, backtick]) ++ [backtick] := by
    simp [wrapJsonFence, fenceJson, fence]
  unfold pyStrip
  rw [hx, lstrip_cons_of_not_ws _ _ (by decide), ← hx, hy,
    rstrip_append_of_not_ws _ _ (by decide)]

/-- Helper: `_clean_json_response` on a fenced payload removes the fences
and strips the body. -/
theorem cleanJsonResponse_wrapJsonFence (body : List Char) :
    cleanJsonResponse (wrapJsonFence body) = pyStrip body := by
  have hb : (backtick == '\n') = false := by decide
  have h1 : fenceJson.isPrefixOf (wrapJsonFence body) = true := by
    rw [List.isPrefixOf_iff_prefix]
    exact List.prefix_append _ _
  have h2 : (wrapJsonFence body).drop 7 = '\n' :: (body ++ '\n' :: fence) := by
    rw [wrapJsonFence, show (7 : Nat) = fenceJson.length from rfl, List.drop_left]
  have h3 : fence.isPrefixOf ('\n' :: (body ++ '\n' :: fence)) = false := by
    simp [fence, List.isPrefixOf, hb]
  have h4 : fence.isSuffixOf ('\n' :: (body ++ '\n' :: fence)) = true := by
    rw [List.isSuffixOf_iff_suffix]
    have hd : '\n' :: (body ++ '\n' :: fence) = ('\n' :: (body ++ ['\n'])) ++ fence := by
      simp
    rw [hd]
    exact List.suffix_append _ _
  have h5 : pyDropRight 3 ('\n' :: (body ++ '\n' :: fence)) = '\n' :: (body ++ ['\n']) := by
    have hd : '\n' :: (body ++ '\n' :: fence) = ('\n' :: (body ++ ['\n'])) ++ fence := by
      simp
    rw [hd]
    unfold pyDropRight
    rw [List.length_append, show fence.length = 3 from rfl, Nat.add_sub_cancel,
      List.take_left]
  simp [cleanJsonResponse, h1, h2, h3, h4, h5, pyStrip_newline_wrap]

/-- Helper: a plain-fenced response has no surrounding whitespace either,
so the initial `.strip()` of the provider pipelines leaves it unchanged. -/
theorem pyStrip_wrapPlainFence (body : List Char) :
    pyStrip (wrapPlainFence body) = wrapPlainFence body := by
  have hx : wrapPlainFence body
      = backtick :: ([backtick, backtick]
          ++ ('\n' :: (body ++ '\n' :: fence))) := by
    simp [wrapPlainFence, fence]
  have hy : wrapPlainFence body
      = (backtick :: ([backtick, backtick]
          ++ ('\n' :: body)) ++ ['\n', backtick, backtick]) ++ [backtick] := by
    simp [wrapPlainFence, fence]
  unfold pyStrip
  rw [hx, lstrip_cons_of_not_ws _ _ (by decide), ← hx, hy,
    rstrip_append_of_not_ws _ _ (by decide)]

/-- Helper: `_clean_json_response` on a payload opened by the plain
three-backtick marker removes both fences through the `text[3:]` branch
(the seven-character json marker is not a prefix here) and strips the
body. -/
theorem cleanJsonResponse_wrapPlainFence (body : List Char) :
    cleanJsonResponse (wrapPlainFence body) = pyStrip body := by
  have hj : (('j' : Char) == '\n') = false := by decide
  have hb : (backtick == '\n') = false := by decide
  have h1 : fenceJson.isPrefixOf (wrapPlainFence body) = false := by
    simp [wrapPlainFence, fence, fenceJson, List.isPrefixOf, hj]
  have h2 : fence.isPrefixOf (wrapPlainFence body) = true := by
    rw [wrapPlainFence, List.isPrefixOf_iff_prefix]
    exact List.prefix_append _ _
  have h3 : (wrapPlainFence body).drop 3 = '\n' :: (body ++ '\n' :: fence) := by
    rw [wrapPlainFence, show (3 : Nat) = fence.length from rfl, List.drop_left]
  have h4 : fence.isSuffixOf ('\n' :: (body ++ '\n' :: fence)) = true := by
    rw [List.isSuffixOf_iff_suffix]
    have hd : '\n' :: (body ++ '\n' :: fence) = ('\n' :: (body ++ ['\n'])) ++ fence := by
      simp
    rw [hd]
    exact List.suffix_append _ _
  have h5 : pyDropRight 3 ('\n' :: (body ++ '\n' :: fence)) = '\n' :: (body ++ ['\n']) := by
    have hd : '\n' :: (body ++ '\n' :: fence) = ('\n' :: (body ++ ['\n'])) ++ fence := by
      simp
    rw [hd]
    unfold pyDropRight
    rw [List.length_append, show fence.length = 3 from rfl, Nat.add_sub_cancel,
      List.take_left]
  simp [cleanJsonResponse, h1, h2, h3, h4, h5, pyStrip_newline_wrap]

/-- Helper: the repeated fence-stripping sequence of the OpenRouter
provider computes the same function as `_clean_json_response` of the
Gemini provider (the two code blocks are identical). -/
theorem openrouterStripFences_eq_clean (t : List Char) :
    openrouterStripFences t = cleanJsonResponse t := rfl

/-- C5 counterexample: the legacy `chat_with_ai` in `gemini.py` hands
`response.text` to `json.loads` without stripping code fences.  For the
concrete fenced payload ```` ```json\nnull\n``` ````, the text it attempts
to parse still carries the fence markers and differs from the stripped
text the provider implementations parse, so the claim that every chat and
insights implementation strips the fence before parsing is false. -/
theorem chat_with_ai_keeps_fence :
    chat_with_ai_parse_input (wrapJsonFence "null".toList)
      = wrapJsonFence "null".toList ∧
    fence.isPrefixOf (chat_with_ai_parse_input (wrapJsonFence "null".toList))
      = true ∧
    geminiProvider_parse_input (wrapJsonFence "null".toList) = "null".toList ∧
    chat_with_ai_parse_input (wrapJsonFence "null".toList)
      ≠ geminiProvider_parse_input (wrapJsonFence "null".toList) := by
  refine ⟨rfl, by decide, by decide, by decide⟩

/-- C5 amended: for every whitespace-trimmed, fence-free payload, the two
provider implementations (`GeminiProvider.chat`/`generate_insights` via
`_clean_json_response`, and `OpenRouterProvider.chat`/`generate_insights`
via the inline stripping) hand `json.loads` the bare payload whether it
arrives unfenced, wrapped by the ```` ```json ```` opening marker, or
wrapped by the plain three-backtick opening marker — so a fenced JSON
payload of either form parses the same as the unfenced one there — while
the legacy `chat_with_ai` and `generate_insights` in `gemini.py` hand the
fenced text of either form through unchanged, with its markers still in
place. -/
theorem fence_stripping_providers_vs_legacy (body : List Char)
    (hl : lstrip body = body) (hr : rstrip body = body)
    (hf1 : fenceJson.isPrefixOf body = false)
    (hf2 : fence.isPrefixOf body = false)
    (hf3 : fence.isSuffixOf body = false) :
    geminiProvider_parse_input (wrapJsonFence body) = body ∧
    geminiProvider_parse_input (wrapPlainFence body) = body ∧
    geminiProvider_parse_input body = body ∧
    openrouter_parse_input (wrapJsonFence body) = body ∧
    openrouter_parse_input (wrapPlainFence body) = body ∧
    openrouter_parse_input body = body ∧
    chat_with_ai_parse_input (wrapJsonFence body) = wrapJsonFence body ∧
    chat_with_ai_parse_input (wrapPlainFence body) = wrapPlainFence body ∧
    gemini_generate_insights_parse_input (wrapJsonFence body)
      = wrapJsonFence body ∧
    gemini_generate_insights_parse_input (wrapPlainFence body)
      = wrapPlainFence body := by
  have hstrip : pyStrip body = body := by
    rw [pyStrip, hl, hr]
  have hclean : cleanJsonResponse body = body := by
    simp [cleanJsonResponse, hf1, hf2, hf3, hstrip]
  refine ⟨?_, ?_, ?_, ?_, ?_, ?_, rfl, rfl, rfl, rfl⟩
  · rw [geminiProvider_parse_input, pyStrip_wrapJsonFence,
      cleanJsonResponse_wrapJsonFence, hstrip]
  · rw [geminiProvider_parse_input, pyStrip_wrapPlainFence,
      cleanJsonResponse_wrapPlainFence, hstrip]
  · rw [geminiProvider_parse_input, hstrip, hclean]
  · rw [openrouter_parse_input, openrouterStripFences_eq_clean,
      pyStrip_wrapJsonFence, cleanJsonResponse_wrapJsonFence, hstrip]
  · rw [openrouter_parse_input, openrouterStripFences_eq_clean,
      pyStrip_wrapPlainFence, cleanJsonResponse_wrapPlainFence, hstrip]
  · rw [openrouter_parse_input, openrouterStripFences_eq_clean, hstrip, hclean]

/-- Witness for the amended C5: the payload `"null"` is trimmed and
fence-free; unfenced, json-fenced or plain-fenced, both providers hand
exactly `"null"` to the parser, while the legacy implementations hand
either fenced text through unchanged. -/
theorem fence_stripping_providers_vs_legacy_witness :
    geminiProvider_parse_input (wrapJsonFence "null".toList) = "null".toList ∧
    geminiProvider_parse_input (wrapPlainFence "null".toList) = "null".toList ∧
    geminiProvider_parse_input "null".toList = "null".toList ∧
    openrouter_parse_input (wrapJsonFence "null".toList) = "null".toList ∧
    openrouter_parse_input (wrapPlainFence "null".toList) = "null".toList ∧
    openrouter_parse_input "null".toList = "null".toList ∧
    chat_with_ai_parse_input (wrapJsonFence "null".toList)
      = wrapJsonFence "null".toList ∧
    chat_with_ai_parse_input (wrapPlainFence "null".toList)
      = wrapPlainFence "null".toList ∧
    gemini_generate_insights_parse_input (wrapJsonFence "null".toList)
      = wrapJsonFence "null".toList ∧
    gemini_generate_insights_parse_input (wrapPlainFence "null".toList)
      = wrapPlainFence "null".toList :=
  fence_stripping_providers_vs_legacy "null".toList
    (by decide) (by decide) (by decide) (by decide) (by decide)
